import Mathlib

/-!
Verification development for the express-locallibrary-tutorial repository:
a shallow embedding of the two catalog controllers (authorController.js and
the book controller) over an explicit document-store state, together with
theorems about the request handlers.
-/

namespace LocalLibrary

/-! ### Sanitization primitives (the validator library functions used by the chains) -/

/-- Whitespace test used by the trim sanitizer of the validator library. -/
def isWhitespaceChar (c : Char) : Bool :=
  c == ' ' || c == '\t' || c == '\n' || c == '\r' ||
  c == Char.ofNat 11 || c == Char.ofNat 12

/-- The trim sanitizer of the validator library: strip whitespace from both
ends of the value. -/
def trimStr (s : String) : String :=
  ⟨((s.data.dropWhile isWhitespaceChar).reverse.dropWhile isWhitespaceChar).reverse⟩

/-- HTML-escaping of one character, as performed by the escape sanitizer of the
validator library: the characters `&`, `"`, `'`, `<`, `>`, `/`, `\` and backtick
are replaced with HTML entities, every other character is kept. -/
def escapeChar (c : Char) : String :=
  if c = '&' then "&amp;"
  else if c = '"' then "&quot;"
  else if c = '\'' then "&#x27;"
  else if c = '<' then "&lt;"
  else if c = '>' then "&gt;"
  else if c = '/' then "&#x2F;"
  else if c = '\\' then "&#x5C;"
  else if c = Char.ofNat 96 then "&#96;"
  else String.singleton c

/-- HTML-escaping of a character list: each character is escaped and the
results are concatenated. -/
def escapeList : List Char → List Char
  | [] => []
  | c :: cs => (escapeChar c).data ++ escapeList cs

/-- HTML-escaping of a whole string (the escape sanitizer). -/
def escapeHtml (s : String) : String :=
  ⟨escapeList s.data⟩

/-- The alphanumeric check of the validator library (default en-US locale:
ASCII letters and digits only). -/
def allAlnum (s : String) : Bool :=
  s.data.all Char.isAlphanum

/-- Number of days of a month in the proleptic Gregorian calendar. -/
def daysInMonth (y m : Nat) : Nat :=
  if m == 2 then
    if (y % 4 == 0 && y % 100 != 0) || y % 400 == 0 then 29 else 28
  else if m == 4 || m == 6 || m == 9 || m == 11 then 30 else 31

/-- Models the ISO-8601 date check performed by the validator library on the
date form fields: the string must have the shape YYYY-MM-DD and denote a
valid calendar date. -/
def isISO8601Date (s : String) : Bool :=
  match s.data with
  | [y1, y2, y3, y4, h1, m1, m2, h2, d1, d2] =>
    h1 == '-' && h2 == '-' &&
    [y1, y2, y3, y4, m1, m2, d1, d2].all Char.isDigit &&
    (let y := ((y1.toNat - 48) * 10 + (y2.toNat - 48)) * 100
             + ((y3.toNat - 48) * 10 + (y4.toNat - 48))
     let m := (m1.toNat - 48) * 10 + (m2.toNat - 48)
     let d := (d1.toNat - 48) * 10 + (d2.toNat - 48)
     1 ≤ m && m ≤ 12 && 1 ≤ d && d ≤ daysInMonth y m)
  | _ => false

/-- The trim-then-escape sanitization applied by the validation chains to every
text field before the record is built from the request body. -/
def sanitizeName (v : String) : String :=
  escapeHtml (trimStr v)

/-- Sanitized value of an optional date field: a missing or empty (falsy) field
is skipped by the optional validator and stored as absent, otherwise the value
is kept. -/
def sanitizeDate (v : Option String) : Option String :=
  match v with
  | none => none
  | some s => if s = "" then none else some s

/-! ### Data model

The four record types of the catalog (the models directory is not part of the
sources; the record fields are those read and written by the controllers).
Document ids are modelled as strings, fresh ids being drawn from a counter. -/

structure Author where
  id : String
  first_name : String
  family_name : String
  date_of_birth : Option String
  date_of_death : Option String
deriving Repr, DecidableEq

structure Book where
  id : String
  title : String
  author : String
  summary : String
  isbn : String
  genre : List String
deriving Repr, DecidableEq

structure Genre where
  id : String
  name : String
deriving Repr, DecidableEq

structure BookInstance where
  id : String
  book : String
  status : String
deriving Repr, DecidableEq

/-- The document store backing the four collections, with a counter used to
assign a fresh id when a document is saved. -/
structure Store where
  authors : List Author
  books : List Book
  genres : List Genre
  bookinstances : List BookInstance
  nextId : Nat
deriving Repr, DecidableEq

/-! ### Data-access operations (the ORM calls made by the controllers) -/

/-- Author.findById. -/
def findAuthorById (s : Store) (id : String) : Option Author :=
  s.authors.find? (fun a => a.id == id)

/-- Book.findById. -/
def findBookById (s : Store) (id : String) : Option Book :=
  s.books.find? (fun b => b.id == id)

/-- The dependent-record query of the author pages:
Book.find with the author field equal to the given id. -/
def booksByAuthor (s : Store) (id : String) : List Book :=
  s.books.filter (fun b => b.author == id)

/-- The dependent-record query of the book pages:
BookInstance.find with the book field equal to the given id. -/
def instancesByBook (s : Store) (id : String) : List BookInstance :=
  s.bookinstances.filter (fun i => i.book == id)

/-- Author.findByIdAndDelete: remove the document with the given id. -/
def deleteAuthorById (s : Store) (id : String) : Store :=
  { s with authors := s.authors.eraseP (fun a => a.id == id) }

/-- Book.findByIdAndDelete: remove the document with the given id. -/
def deleteBookById (s : Store) (id : String) : Store :=
  { s with books := s.books.eraseP (fun b => b.id == id) }

/-! ### Parallel and sequential read composition -/

/-- A database query as used by the controllers: a function of the store
returning a value and the store it leaves behind. -/
def Query (α : Type) : Type := Store → α × Store

/-- Sequential composition of two store queries: the second query runs on the
state left by the first. -/
def seqQ {α β : Type} (q1 : Query α) (q2 : Query β) : Query (α × β) := fun s =>
  let r1 := q1 s
  let r2 := q2 r1.2
  ((r1.1, r2.1), r2.2)

/-- Concurrent-await-all composition in the shape of the Promise.all calls of
the controllers: both queries read the same state and the state is returned
unchanged. -/
def parQ {α β : Type} (q1 : Query α) (q2 : Query β) : Query (α × β) := fun s =>
  (((q1 s).1, (q2 s).1), s)

/-- Book.countDocuments with an empty filter. -/
def qCountBooks : Query Nat := fun s => (s.books.length, s)

/-- BookInstance.countDocuments with an empty filter. -/
def qCountBookInstances : Query Nat := fun s => (s.bookinstances.length, s)

/-- BookInstance.countDocuments with the status filter "Available". -/
def qCountAvailableInstances : Query Nat :=
  fun s => ((s.bookinstances.filter (fun i => i.status == "Available")).length, s)

/-- Author.countDocuments with an empty filter. -/
def qCountAuthors : Query Nat := fun s => (s.authors.length, s)

/-- Genre.countDocuments with an empty filter. -/
def qCountGenres : Query Nat := fun s => (s.genres.length, s)

/-- Author.findById as a query. -/
def qFindAuthor (id : String) : Query (Option Author) := fun s => (findAuthorById s id, s)

/-- The books-by-author read as a query. -/
def qBooksByAuthor (id : String) : Query (List Book) := fun s => (booksByAuthor s id, s)

/-- Book.findById as a query. -/
def qFindBook (id : String) : Query (Option Book) := fun s => (findBookById s id, s)

/-- The instances-by-book read as a query. -/
def qInstancesByBook (id : String) : Query (List BookInstance) :=
  fun s => (instancesByBook s id, s)

/-! ### Forms and validation chains -/

/-- A validation error recorded for a form field. -/
structure FieldError where
  param : String
  msg : String
deriving Repr, DecidableEq

/-- The validation chain of the name fields: trim, require length at least 1,
escape, then require the (escaped) value to be alphanumeric. Each failing
validator records one error for the field. -/
def nameFieldErrors (param msgEmpty msgAlnum : String) (v : String) : List FieldError :=
  (if (trimStr v).length < 1 then [⟨param, msgEmpty⟩] else []) ++
  (if allAlnum (escapeHtml (trimStr v)) then [] else [⟨param, msgAlnum⟩])

/-- The validation chain of the optional date fields: a falsy value (absent or
empty string) is skipped, otherwise the value must pass the ISO-8601 check. -/
def dateFieldErrors (param msg : String) (v : Option String) : List FieldError :=
  match v with
  | none => []
  | some s => if s = "" then [] else if isISO8601Date s then [] else [⟨param, msg⟩]

/-- The validation chain of the required book fields: trim, require length at
least 1, escape. -/
def requiredFieldErrors (param msg : String) (v : String) : List FieldError :=
  if (trimStr v).length < 1 then [⟨param, msg⟩] else []

/-- The request body of the author create and update forms. -/
structure AuthorForm where
  first_name : String
  family_name : String
  date_of_birth : Option String
  date_of_death : Option String
deriving Repr, DecidableEq

/-- The validation result of the author form, chains in source order. -/
def authorFormErrors (f : AuthorForm) : List FieldError :=
  nameFieldErrors "first_name" "First name must be specified."
    "First name has non-alphanumeric characters." f.first_name ++
  nameFieldErrors "family_name" "Family name must be specified."
    "Family name has non-alphanumeric characters." f.family_name ++
  dateFieldErrors "date_of_birth" "Invalid date of birth" f.date_of_birth ++
  dateFieldErrors "date_of_death" "Invalid date of death" f.date_of_death

/-- The Author document built from the sanitized request body. -/
def authorFromForm (f : AuthorForm) (id : String) : Author :=
  { id := id
    first_name := sanitizeName f.first_name
    family_name := sanitizeName f.family_name
    date_of_birth := sanitizeDate f.date_of_birth
    date_of_death := sanitizeDate f.date_of_death }

/-- The genre field of the book form body as it arrives: absent, a single
value, or an array of values. -/
inductive GenreField where
  | undef
  | single (v : String)
  | arr (l : List String)
deriving Repr, DecidableEq

/-- The genre-normalization middleware of book create and update POST: a value
that is not an array becomes one (empty when the field is undefined, a
one-element array otherwise); an array is left unchanged. -/
def normalizeGenre (g : GenreField) : GenreField :=
  match g with
  | .arr l => .arr l
  | .undef => .arr []
  | .single v => .arr [v]

/-- The list of values carried by a genre field. -/
def genreElems (g : GenreField) : List String :=
  match g with
  | .undef => []
  | .single v => [v]
  | .arr l => l

/-- The request body of the book create and update forms. -/
structure BookForm where
  title : String
  author : String
  summary : String
  isbn : String
  genre : GenreField
deriving Repr, DecidableEq

/-- The validation result of the book form, chains in source order (the
genre.* chain only escapes and records no error). -/
def bookFormErrors (f : BookForm) : List FieldError :=
  requiredFieldErrors "title" "Title must not be empty." f.title ++
  requiredFieldErrors "author" "Author must not be empty." f.author ++
  requiredFieldErrors "summary" "Summary must not be empty." f.summary ++
  requiredFieldErrors "isbn" "ISBN must not be empty" f.isbn

/-- The Book document built from the sanitized request body; the genre field
has been normalized to an array by the middleware and each element escaped by
the genre.* sanitizer, so the undefined-check of the update handler is
vacuous by then. -/
def bookFromForm (f : BookForm) (id : String) : Book :=
  { id := id
    title := sanitizeName f.title
    author := sanitizeName f.author
    summary := sanitizeName f.summary
    isbn := sanitizeName f.isbn
    genre := (genreElems (normalizeGenre f.genre)).map escapeHtml }

/-! ### Responses and computed URL fields -/

/-- The outcome of one request handler: a rendered view with its data, a
redirect, or an error forwarded to the shared error path with an optional
HTTP status. -/
inductive Response (α : Type) where
  | render (view : String) (data : α)
  | redirect (url : String)
  | error (status : Option Nat)
deriving Repr, DecidableEq

/-- Modelled from the spec: the Author model file is not among the sources;
the data-model section says the record types carry computed display fields,
e.g. "a canonical URL string". The controllers redirect to this field after a
successful create or update. -/
def authorUrl (a : Author) : String := "/catalog/author/" ++ a.id

/-- Modelled from the spec: the canonical URL string of a Book, the computed
display field of the Book model (file not among the sources). -/
def bookUrl (b : Book) : String := "/catalog/book/" ++ b.id

/-- Modelled from the spec: a saved document receives a fresh id from the
store (the document database assigns object ids on save). -/
def freshId (s : Store) : String := toString s.nextId

/-! ### Sort orders used by the list pages -/

/-- Ascending order on authors by family name, as in sort with family_name 1. -/
def authorLe (a b : Author) : Prop := a.family_name ≤ b.family_name

instance : DecidableRel authorLe :=
  fun a b => inferInstanceAs (Decidable (a.family_name ≤ b.family_name))

instance : IsTotal Author authorLe := ⟨fun a b => le_total a.family_name b.family_name⟩

instance : IsTrans Author authorLe := ⟨fun _ _ _ h1 h2 => le_trans h1 h2⟩

/-- Ascending order on books by title, as in sort with title 1. -/
def bookLe (a b : Book) : Prop := a.title ≤ b.title

instance : DecidableRel bookLe :=
  fun a b => inferInstanceAs (Decidable (a.title ≤ b.title))

instance : IsTotal Book bookLe := ⟨fun a b => le_total a.title b.title⟩

instance : IsTrans Book bookLe := ⟨fun _ _ _ h1 h2 => le_trans h1 h2⟩

/-- Ascending order on genres by name, as in sort with name 1. -/
def genreLe (a b : Genre) : Prop := a.name ≤ b.name

instance : DecidableRel genreLe :=
  fun a b => inferInstanceAs (Decidable (a.name ≤ b.name))

/-- Author.find sorted ascending by family_name, used by the author list page
and the book form pages. -/
def sortedAuthors (s : Store) : List Author := List.insertionSort authorLe s.authors

/-- Genre.find sorted ascending by name, used by the book form pages. -/
def sortedGenres (s : Store) : List Genre := List.insertionSort genreLe s.genres

/-- The checked-marking pass of the book form pages: each genre is paired with
whether the book references it. -/
def markGenres (gs : List Genre) (b : Book) : List (Genre × Bool) :=
  gs.map (fun g => (g, b.genre.contains g.id))

/-! ### Update operations -/

/-- Author.findByIdAndUpdate without the new option: replace the document with
the given id and return the old document, or return nothing and leave the
store unchanged when no document matches. -/
def updateAuthorById (s : Store) (id : String) (a : Author) : Option Author × Store :=
  match findAuthorById s id with
  | none => (none, s)
  | some old => (some old, { s with authors := s.authors.map (fun x => if x.id == id then a else x) })

/-- Book.findByIdAndUpdate without the new option. -/
def updateBookById (s : Store) (id : String) (b : Book) : Option Book × Store :=
  match findBookById s id with
  | none => (none, s)
  | some old => (some old, { s with books := s.books.map (fun x => if x.id == id then b else x) })

/-! ### Handlers: home page and book controller -/

/-- The five count reads of the home page, composed as in the Promise.all of
the index handler. -/
def indexReads : Query (Nat × Nat × Nat × Nat × Nat) :=
  parQ qCountBooks (parQ qCountBookInstances
    (parQ qCountAvailableInstances (parQ qCountAuthors qCountGenres)))

/-- The same five reads performed sequentially in listed order: the spec-side
description used by the refinement claim about concurrent-await-all. -/
def indexReadsSeq : Query (Nat × Nat × Nat × Nat × Nat) :=
  seqQ qCountBooks (seqQ qCountBookInstances
    (seqQ qCountAvailableInstances (seqQ qCountAuthors qCountGenres)))

/-- The home page handler: render the five counts. -/
def index (s : Store) : Response (String × Nat × Nat × Nat × Nat × Nat) :=
  match indexReads s with
  | ((nb, nbi, nba, na, ng), _) => .render "index" ("Local Library Home", nb, nbi, nba, na, ng)

/-- The home page handler with the reads performed sequentially, for the
refinement comparison. -/
def indexSeq (s : Store) : Response (String × Nat × Nat × Nat × Nat × Nat) :=
  match indexReadsSeq s with
  | ((nb, nbi, nba, na, ng), _) => .render "index" ("Local Library Home", nb, nbi, nba, na, ng)

/-- The book list page: all books sorted ascending by title, with the author
reference populated. -/
def book_list (s : Store) : Response (String × List (Book × Option Author)) :=
  .render "book_list"
    ("Book List", (List.insertionSort bookLe s.books).map (fun b => (b, findAuthorById s b.author)))

/-- The reads of the book detail page, composed as in its Promise.all. -/
def bookDetailReads (id : String) : Query (Option Book × List BookInstance) :=
  parQ (qFindBook id) (qInstancesByBook id)

/-- The reads of the book detail page performed sequentially in listed order. -/
def bookDetailReadsSeq (id : String) : Query (Option Book × List BookInstance) :=
  seqQ (qFindBook id) (qInstancesByBook id)

/-- The book detail page: 404 to the error path when no book has the id from
the URL, otherwise render the book and its copies. -/
def book_detail (s : Store) (paramsId : String) : Response (String × Book × List BookInstance) :=
  match (bookDetailReads paramsId s).1 with
  | (none, _) => .error (some 404)
  | (some book, bookInstances) => .render "book_detail" (book.title, book, bookInstances)

/-- The book detail page computed from the sequential reads, for the
refinement comparison. -/
def book_detailSeq (s : Store) (paramsId : String) : Response (String × Book × List BookInstance) :=
  match (bookDetailReadsSeq paramsId s).1 with
  | (none, _) => .error (some 404)
  | (some book, bookInstances) => .render "book_detail" (book.title, book, bookInstances)

/-- Book create on POST: normalize the genre array, validate, re-render the
form with sanitized values and errors when validation failed, otherwise save
the new book and redirect to its URL. -/
def book_create_post (s : Store) (f : BookForm) :
    Response (String × List Author × List (Genre × Bool) × Option Book × List FieldError) × Store :=
  let errors := bookFormErrors f
  let book := bookFromForm f (freshId s)
  if !errors.isEmpty then
    (.render "book_form"
      ("Create Book", sortedAuthors s, markGenres (sortedGenres s) book, some book, errors), s)
  else
    (.redirect (bookUrl book), { s with books := s.books ++ [book], nextId := s.nextId + 1 })

/-- Book delete on POST: when the book id from the URL still has book
instances, re-render the delete page; otherwise delete the book named by the
form body (bookid) and redirect to the book list. -/
def book_delete_post (s : Store) (paramsId bodyBookid : String) :
    Response (String × Option Book × List BookInstance) × Store :=
  let book := findBookById s paramsId
  let allBookInstances := instancesByBook s paramsId
  if allBookInstances.length > 0 then
    (.render "book_delete" ("Delete Book", book, allBookInstances), s)
  else
    (.redirect "/catalog/books", deleteBookById s bodyBookid)

/-- Book update on POST: normalize and validate as for create; on validation
errors re-render the form against the unchanged store; otherwise
find-and-update the book with the URL id. When no book matches, reading the
url of the absent result throws, and the catch forwards the thrown error to
the error path with no status. -/
def book_update_post (s : Store) (paramsId : String) (f : BookForm) :
    Response (String × List Author × List (Genre × Bool) × Option Book × List FieldError) × Store :=
  let errors := bookFormErrors f
  let book := bookFromForm f paramsId
  if !errors.isEmpty then
    (.render "book_form"
      ("Update Book", sortedAuthors s, markGenres (sortedGenres s) book, some book, errors), s)
  else
    match updateBookById s paramsId book with
    | (none, s2) => (.error none, s2)
    | (some updatedBook, s2) => (.redirect (bookUrl updatedBook), s2)

/-! ### Handlers: author controller -/

/-- The author list page: all authors sorted ascending by family name. -/
def author_list (s : Store) : Response (String × List Author) :=
  .render "author_list" ("Author List", sortedAuthors s)

/-- The reads of the author detail page, composed as in its Promise.all. -/
def authorDetailReads (id : String) : Query (Option Author × List Book) :=
  parQ (qFindAuthor id) (qBooksByAuthor id)

/-- The reads of the author detail page performed sequentially in listed
order. -/
def authorDetailReadsSeq (id : String) : Query (Option Author × List Book) :=
  seqQ (qFindAuthor id) (qBooksByAuthor id)

/-- The author detail page: 404 to the error path when no author has the id
from the URL, otherwise render the author and their books. -/
def author_detail (s : Store) (paramsId : String) : Response (String × Author × List Book) :=
  match (authorDetailReads paramsId s).1 with
  | (none, _) => .error (some 404)
  | (some author, allBooksByAuthor) =>
    .render "author_detail" ("Author Detail", author, allBooksByAuthor)

/-- The author detail page computed from the sequential reads, for the
refinement comparison. -/
def author_detailSeq (s : Store) (paramsId : String) : Response (String × Author × List Book) :=
  match (authorDetailReadsSeq paramsId s).1 with
  | (none, _) => .error (some 404)
  | (some author, allBooksByAuthor) =>
    .render "author_detail" ("Author Detail", author, allBooksByAuthor)

/-- Author create on POST: validate and sanitize; on errors re-render the form
with the sanitized record and the errors; otherwise save the new author and
redirect to its URL. -/
def author_create_post (s : Store) (f : AuthorForm) :
    Response (String × Option Author × List FieldError) × Store :=
  let errors := authorFormErrors f
  let author := authorFromForm f (freshId s)
  if !errors.isEmpty then
    (.render "author_form" ("Create Author", some author, errors), s)
  else
    (.redirect (authorUrl author), { s with authors := s.authors ++ [author], nextId := s.nextId + 1 })

/-- Author delete on POST: when the author id from the URL still has books,
re-render the delete page; otherwise delete the author named by the form body
(authorid) and redirect to the author list. -/
def author_delete_post (s : Store) (paramsId bodyAuthorid : String) :
    Response (String × Option Author × List Book) × Store :=
  let author := findAuthorById s paramsId
  let allBooksByAuthor := booksByAuthor s paramsId
  if allBooksByAuthor.length > 0 then
    (.render "author_delete" ("Delete Author", author, allBooksByAuthor), s)
  else
    (.redirect "/catalog/authors", deleteAuthorById s bodyAuthorid)

/-- Author update on GET: 404 to the error path when no author has the id
from the URL, otherwise render the form with the author. -/
def author_update_get (s : Store) (paramsId : String) : Response (String × Author) :=
  match findAuthorById s paramsId with
  | none => .error (some 404)
  | some author => .render "author_form" ("Update Author", author)

/-- Author update on POST: validate and sanitize; on errors re-render the
form against the unchanged store; otherwise find-and-update the author with
the URL id. When no author matches, reading the url of the absent result
throws, and the catch forwards the thrown error with no status. -/
def author_update_post (s : Store) (paramsId : String) (f : AuthorForm) :
    Response (String × Option Author × List FieldError) × Store :=
  let errors := authorFormErrors f
  let author := authorFromForm f paramsId
  if !errors.isEmpty then
    (.render "author_form" ("Update Author", some author, errors), s)
  else
    match updateAuthorById s paramsId author with
    | (none, s2) => (.error none, s2)
    | (some updatedAuthor, s2) => (.redirect (authorUrl updatedAuthor), s2)

/-! ### Sample data shared by the concrete witnesses -/

/-- An empty document store. -/
def emptyStore : Store := ⟨[], [], [], [], 0⟩

/-- An author document used by the witnesses. -/
def authorA1 : Author := ⟨"a1", "John", "Smith", none, none⟩

/-- A second author document, without any dependent book. -/
def authorA2 : Author := ⟨"a2", "Jane", "Doe", none, none⟩

/-- A book document referencing authorA1. -/
def bookB1 : Book := ⟨"b1", "Dune", "a1", "Sand", "111", []⟩

/-- A second book document, without any dependent copy. -/
def bookB2 : Book := ⟨"b2", "Emma", "a1", "Prose", "222", []⟩

/-- A copy of bookB1. -/
def instanceI1 : BookInstance := ⟨"i1", "b1", "Available"⟩

/-- A populated store: two authors, two books by the first author, one copy of
the first book. -/
def libStore : Store :=
  ⟨[authorA1, authorA2], [bookB1, bookB2], [], [instanceI1], 10⟩

/-- An author form failing validation (both names empty). -/
def badAuthorForm : AuthorForm := ⟨"", "", none, none⟩

/-- An author form passing validation. -/
def goodAuthorForm : AuthorForm := ⟨" John ", "Smith", some "1990-01-02", none⟩

/-- A book form failing validation (empty title). -/
def badBookForm : BookForm := ⟨"", "a1", "Sand", "111", GenreField.undef⟩

/-- A book form passing validation. -/
def goodBookForm : BookForm := ⟨"Dune", "a1", "Sand", "111", GenreField.single "g1"⟩

/-! ### Theorems -/

/-- C7: the genre-normalization step maps an undefined field to the empty
array, a single value to the one-element array, leaves an array unchanged,
always yields an array, and is idempotent. -/
theorem genre_normalization_cases_and_idempotent (g : GenreField) (v : String) (l : List String) :
    normalizeGenre .undef = .arr [] ∧
    normalizeGenre (.single v) = .arr [v] ∧
    normalizeGenre (.arr l) = .arr l ∧
    (∃ l2, normalizeGenre g = .arr l2) ∧
    normalizeGenre (normalizeGenre g) = normalizeGenre g := by
  refine ⟨rfl, rfl, rfl, ?_, ?_⟩ <;> cases g <;> simp [normalizeGenre]

/-- C8: for the home page counts and the two detail pages, the
concurrent-await-all composition of the reads equals the sequential
composition in listed order, both at the level of the composed reads and of
the rendered result. -/
theorem parallel_reads_eq_sequential (s : Store) (pid : String) :
    indexReads s = indexReadsSeq s ∧
    index s = indexSeq s ∧
    authorDetailReads pid s = authorDetailReadsSeq pid s ∧
    author_detail s pid = author_detailSeq s pid ∧
    bookDetailReads pid s = bookDetailReadsSeq pid s ∧
    book_detail s pid = book_detailSeq s pid :=
  ⟨rfl, rfl, rfl, rfl, rfl, rfl⟩

/-- C6: the author list page renders all authors sorted ascending by family
name, and the book list page renders all books (author populated) sorted
ascending by title: each rendered list is a permutation of the stored
collection and is sorted by the respective order. -/
theorem list_pages_sorted (s : Store) :
    (∃ l : List Author, author_list s = .render "author_list" ("Author List", l) ∧
      l.Perm s.authors ∧ l.Sorted authorLe) ∧
    (∃ l : List Book, book_list s = .render "book_list"
        ("Book List", l.map (fun b => (b, findAuthorById s b.author))) ∧
      l.Perm s.books ∧ l.Sorted bookLe) := by
  refine ⟨⟨List.insertionSort authorLe s.authors, rfl, ?_, ?_⟩,
          ⟨List.insertionSort bookLe s.books, rfl, ?_, ?_⟩⟩
  · exact List.perm_insertionSort authorLe s.authors
  · exact List.sorted_insertionSort authorLe s.authors
  · exact List.perm_insertionSort bookLe s.books
  · exact List.sorted_insertionSort bookLe s.books

/-- C1: a delete POST whose URL id still has dependent records (a Book
referencing the Author, or a BookInstance referencing the Book) re-renders the
delete page and leaves the store unchanged. -/
theorem delete_post_dependents_rerender (s : Store) (pidA pidB bidA bidB : String)
    (hA : booksByAuthor s pidA ≠ []) (hB : instancesByBook s pidB ≠ []) :
    author_delete_post s pidA bidA =
      (.render "author_delete" ("Delete Author", findAuthorById s pidA, booksByAuthor s pidA), s) ∧
    book_delete_post s pidB bidB =
      (.render "book_delete" ("Delete Book", findBookById s pidB, instancesByBook s pidB), s) := by
  have h1 : (booksByAuthor s pidA).length > 0 := List.length_pos.mpr hA
  have h2 : (instancesByBook s pidB).length > 0 := List.length_pos.mpr hB
  exact ⟨by simp [author_delete_post, h1], by simp [book_delete_post, h2]⟩

/-- Concrete run of the guarded delete: author a1 has a book and book b1 has a
copy in libStore, so both delete POSTs re-render and change nothing. -/
theorem delete_post_dependents_rerender_spot :
    author_delete_post libStore "a1" "a2" =
      (.render "author_delete"
        ("Delete Author", findAuthorById libStore "a1", booksByAuthor libStore "a1"), libStore) ∧
    book_delete_post libStore "b1" "b2" =
      (.render "book_delete"
        ("Delete Book", findBookById libStore "b1", instancesByBook libStore "b1"), libStore) :=
  delete_post_dependents_rerender libStore "a1" "b1" "a2" "b2" (by decide) (by decide)

/-- C2: a detail request (author or book, and also the author update GET)
whose URL id matches no stored document forwards an error with status 404 to
the shared error path instead of rendering. -/
theorem detail_pages_404_on_missing (s : Store) (pid : String)
    (hA : findAuthorById s pid = none) (hB : findBookById s pid = none) :
    author_detail s pid = .error (some 404) ∧
    book_detail s pid = .error (some 404) ∧
    author_update_get s pid = .error (some 404) := by
  refine ⟨?_, ?_, ?_⟩ <;>
    simp [author_detail, book_detail, author_update_get, authorDetailReads, bookDetailReads,
      parQ, qFindAuthor, qFindBook, qBooksByAuthor, qInstancesByBook, hA, hB]

/-- Concrete run of the 404 path on the empty store. -/
theorem detail_pages_404_on_missing_spot :
    author_detail emptyStore "z" = .error (some 404) ∧
    book_detail emptyStore "z" = .error (some 404) ∧
    author_update_get emptyStore "z" = .error (some 404) :=
  detail_pages_404_on_missing emptyStore "z" (by decide) (by decide)

/-- C3: a create or update POST with at least one validation error re-renders
the originating form with the record built from the sanitized field values and
the recorded field errors, and returns the store unchanged. -/
theorem validation_errors_rerender_form (s : Store) (pid : String)
    (f : AuthorForm) (g : BookForm)
    (hf : authorFormErrors f ≠ []) (hg : bookFormErrors g ≠ []) :
    author_create_post s f =
      (.render "author_form"
        ("Create Author", some (authorFromForm f (freshId s)), authorFormErrors f), s) ∧
    author_update_post s pid f =
      (.render "author_form"
        ("Update Author", some (authorFromForm f pid), authorFormErrors f), s) ∧
    book_create_post s g =
      (.render "book_form" ("Create Book", sortedAuthors s,
        markGenres (sortedGenres s) (bookFromForm g (freshId s)),
        some (bookFromForm g (freshId s)), bookFormErrors g), s) ∧
    book_update_post s pid g =
      (.render "book_form" ("Update Book", sortedAuthors s,
        markGenres (sortedGenres s) (bookFromForm g pid),
        some (bookFromForm g pid), bookFormErrors g), s) := by
  have hf' : (authorFormErrors f).isEmpty = false := by
    simpa [List.isEmpty_iff] using hf
  have hg' : (bookFormErrors g).isEmpty = false := by
    simpa [List.isEmpty_iff] using hg
  refine ⟨?_, ?_, ?_, ?_⟩ <;>
    simp [author_create_post, author_update_post, book_create_post, book_update_post, hf', hg']

/-- Concrete run of the validation-error re-render, on forms with empty
required fields. -/
theorem validation_errors_rerender_form_spot :
    author_create_post libStore badAuthorForm =
      (.render "author_form"
        ("Create Author", some (authorFromForm badAuthorForm (freshId libStore)),
         authorFormErrors badAuthorForm), libStore) ∧
    book_update_post libStore "b1" badBookForm =
      (.render "book_form" ("Update Book", sortedAuthors libStore,
        markGenres (sortedGenres libStore) (bookFromForm badBookForm "b1"),
        some (bookFromForm badBookForm "b1"), bookFormErrors badBookForm), libStore) := by
  have h := validation_errors_rerender_form libStore "b1" badAuthorForm badBookForm
    (by decide) (by decide)
  exact ⟨h.1, h.2.2.2⟩

/-- C4: an author create POST whose fields all pass validation appends exactly
one new Author built from the sanitized form fields (with a fresh id) and
redirects to that author's canonical detail URL. -/
theorem author_create_post_valid_saves_and_redirects (s : Store) (f : AuthorForm)
    (h : authorFormErrors f = []) :
    author_create_post s f =
      (.redirect (authorUrl (authorFromForm f (freshId s))),
       { s with authors := s.authors ++ [authorFromForm f (freshId s)],
                nextId := s.nextId + 1 }) := by
  have h' : (authorFormErrors f).isEmpty = true := by simp [List.isEmpty_iff, h]
  simp [author_create_post, h']

/-- Concrete run of a valid author create POST. -/
theorem author_create_post_valid_saves_and_redirects_spot :
    author_create_post libStore goodAuthorForm =
      (.redirect (authorUrl (authorFromForm goodAuthorForm (freshId libStore))),
       { libStore with authors := libStore.authors ++ [authorFromForm goodAuthorForm (freshId libStore)],
                       nextId := libStore.nextId + 1 }) :=
  author_create_post_valid_saves_and_redirects libStore goodAuthorForm (by decide)

/-- C9: when the guard of a delete POST passes, the document removed is the
one named by the form body id, not the one named by the URL id: the store
becomes the store with the body id erased, and any document carrying the URL
id survives when the two ids differ. -/
theorem delete_post_targets_form_body_id (s : Store) (pidA pidB bidA bidB : String)
    (hneA : pidA ≠ bidA) (hgA : booksByAuthor s pidA = [])
    (hneB : pidB ≠ bidB) (hgB : instancesByBook s pidB = []) :
    (author_delete_post s pidA bidA).2 = deleteAuthorById s bidA ∧
    (∀ a ∈ s.authors, a.id = pidA → a ∈ (author_delete_post s pidA bidA).2.authors) ∧
    (author_delete_post s pidA bidA).1 = .redirect "/catalog/authors" ∧
    (book_delete_post s pidB bidB).2 = deleteBookById s bidB ∧
    (∀ b ∈ s.books, b.id = pidB → b ∈ (book_delete_post s pidB bidB).2.books) ∧
    (book_delete_post s pidB bidB).1 = .redirect "/catalog/books" := by
  have hgA' : ¬ (booksByAuthor s pidA).length > 0 := by simp [hgA]
  have hgB' : ¬ (instancesByBook s pidB).length > 0 := by simp [hgB]
  refine ⟨?_, ?_, ?_, ?_, ?_, ?_⟩
  · simp [author_delete_post, hgA']
  · intro a ha hid
    have hp : ¬ ((a.id == bidA) = true) := by simp [hid]; exact hneA
    simp [author_delete_post, hgA', deleteAuthorById]
    exact (List.mem_eraseP_of_neg (p := fun x => x.id == bidA) (a := a) hp).mpr ha
  · simp [author_delete_post, hgA']
  · simp [book_delete_post, hgB']
  · intro b hb hid
    have hp : ¬ ((b.id == bidB) = true) := by simp [hid]; exact hneB
    simp [book_delete_post, hgB', deleteBookById]
    exact (List.mem_eraseP_of_neg (p := fun x => x.id == bidB) (a := b) hp).mpr hb
  · simp [book_delete_post, hgB']

/-- Concrete run of the body-id deletion: the URL names a2 and b2 (no
dependents), the body names a1 and b1, and it is a1 and b1 that are removed
even though a1 still has books and b1 still has a copy. -/
theorem delete_post_targets_form_body_id_spot :
    (author_delete_post libStore "a2" "a1").2 = deleteAuthorById libStore "a1" ∧
    (∀ a ∈ libStore.authors, a.id = "a2" → a ∈ (author_delete_post libStore "a2" "a1").2.authors) ∧
    (book_delete_post libStore "b2" "b1").2 = deleteBookById libStore "b1" := by
  have h := delete_post_targets_form_body_id libStore "a2" "b2" "a1" "b1"
    (by decide) (by decide) (by decide) (by decide)
  exact ⟨h.1, h.2.1, h.2.2.2.1⟩

/-- C10: an update POST whose fields all pass validation but whose URL id
matches no stored document does not produce a 404: the find-and-update finds
nothing, reading the redirect URL from the absent result throws, and the
handler forwards a generic error without status. -/
theorem update_post_missing_id_generic_error (s : Store) (pid : String)
    (f : AuthorForm) (g : BookForm)
    (hf : authorFormErrors f = []) (hA : findAuthorById s pid = none)
    (hg : bookFormErrors g = []) (hB : findBookById s pid = none) :
    author_update_post s pid f = (.error none, s) ∧
    (author_update_post s pid f).1 ≠ .error (some 404) ∧
    book_update_post s pid g = (.error none, s) ∧
    (book_update_post s pid g).1 ≠ .error (some 404) := by
  have hf' : (authorFormErrors f).isEmpty = true := by simp [List.isEmpty_iff, hf]
  have hg' : (bookFormErrors g).isEmpty = true := by simp [List.isEmpty_iff, hg]
  have h1 : author_update_post s pid f = (.error none, s) := by
    simp [author_update_post, hf', updateAuthorById, hA]
  have h2 : book_update_post s pid g = (.error none, s) := by
    simp [book_update_post, hg', updateBookById, hB]
  refine ⟨h1, ?_, h2, ?_⟩ <;> simp [h1, h2]

/-- Concrete run of a valid update POST against an id absent from the store. -/
theorem update_post_missing_id_generic_error_spot :
    author_update_post emptyStore "z" goodAuthorForm = (.error none, emptyStore) ∧
    book_update_post emptyStore "z" goodBookForm = (.error none, emptyStore) := by
  have h := update_post_missing_id_generic_error emptyStore "z" goodAuthorForm goodBookForm
    (by decide) (by decide) (by decide) (by decide)
  exact ⟨h.1, h.2.2.1⟩

/-! ### Validation characterization (C5) -/

/-- Escaping one character preserves the all-alphanumeric test: an
alphanumeric character is kept as is, and a non-alphanumeric character maps
to a string that still has a non-alphanumeric character. -/
theorem escapeChar_data_all_alnum (c : Char) :
    ((escapeChar c).data.all Char.isAlphanum) = c.isAlphanum := by
  by_cases h1 : c = '&'
  · subst h1; decide
  by_cases h2 : c = '"'
  · subst h2; decide
  by_cases h3 : c = '\''
  · subst h3; decide
  by_cases h4 : c = '<'
  · subst h4; decide
  by_cases h5 : c = '>'
  · subst h5; decide
  by_cases h6 : c = '/'
  · subst h6; decide
  by_cases h7 : c = '\\'
  · subst h7; decide
  by_cases h8 : c = Char.ofNat 96
  · subst h8; decide
  simp [escapeChar, h1, h2, h3, h4, h5, h6, h7, h8, String.singleton]

/-- Escaping a character list preserves the all-alphanumeric test. -/
theorem escapeList_all_alnum (l : List Char) :
    (escapeList l).all Char.isAlphanum = l.all Char.isAlphanum := by
  induction l with
  | nil => rfl
  | cons c cs ih => simp [escapeList, List.all_append, escapeChar_data_all_alnum, ih]

/-- The alphanumeric check run after the escape sanitizer (as the validation
chain orders them) accepts exactly the values whose unescaped form is
alphanumeric. -/
theorem allAlnum_escapeHtml (s : String) : allAlnum (escapeHtml s) = allAlnum s :=
  escapeList_all_alnum s.data

/-- The length-at-least-one check of the chains fails exactly on the empty
string. -/
theorem stringLength_lt_one_iff (s : String) : (s.length < 1) ↔ s = "" := by
  obtain ⟨l⟩ := s
  cases l <;> simp [String.length, String.ext_iff]

/-- A name chain records an error exactly when the trimmed value is empty or
has a non-alphanumeric character. -/
theorem nameFieldErrors_ne_nil_iff (p m1 m2 v : String) :
    nameFieldErrors p m1 m2 v ≠ [] ↔ ¬(trimStr v ≠ "" ∧ allAlnum (trimStr v) = true) := by
  by_cases h1 : (trimStr v).length < 1 <;>
    by_cases h2 : allAlnum (escapeHtml (trimStr v)) = true <;>
      simp [nameFieldErrors, h1, h2, ← stringLength_lt_one_iff, ← allAlnum_escapeHtml]

/-- A date chain records an error exactly when the field is present, truthy
and fails the ISO-8601 check. -/
theorem dateFieldErrors_ne_nil_iff (p m : String) (v : Option String) :
    dateFieldErrors p m v ≠ [] ↔ ∃ d, v = some d ∧ d ≠ "" ∧ isISO8601Date d = false := by
  cases v with
  | none => simp [dateFieldErrors]
  | some s =>
    by_cases h1 : s = ""
    · subst h1; simp [dateFieldErrors]
    · by_cases h2 : isISO8601Date s = true <;> simp_all [dateFieldErrors]

/-- A required-field chain records an error exactly when the trimmed value is
empty. -/
theorem requiredFieldErrors_ne_nil_iff (p m v : String) :
    requiredFieldErrors p m v ≠ [] ↔ trimStr v = "" := by
  by_cases h : (trimStr v).length < 1 <;>
    simp [requiredFieldErrors, h, ← stringLength_lt_one_iff]

/-- Every error of a name chain names its own field. -/
theorem mem_nameFieldErrors_param {p m1 m2 v : String} {e : FieldError}
    (h : e ∈ nameFieldErrors p m1 m2 v) : e.param = p := by
  unfold nameFieldErrors at h
  rcases List.mem_append.mp h with h | h <;> split at h <;> simp_all

/-- Every error of a date chain names its own field. -/
theorem mem_dateFieldErrors_param {p m : String} {v : Option String} {e : FieldError}
    (h : e ∈ dateFieldErrors p m v) : e.param = p := by
  unfold dateFieldErrors at h
  rcases v with _ | s
  · simp_all
  · split at h <;> simp_all

/-- Every error of a required-field chain names its own field. -/
theorem mem_requiredFieldErrors_param {p m v : String} {e : FieldError}
    (h : e ∈ requiredFieldErrors p m v) : e.param = p := by
  unfold requiredFieldErrors at h
  split at h <;> simp_all

/-- A list of errors all naming field p has an error naming q exactly when
p is q and the list is non-empty. -/
theorem exists_param_of_chunk {L : List FieldError} {p q : String}
    (hall : ∀ e ∈ L, e.param = p) : (∃ e ∈ L, e.param = q) ↔ (p = q ∧ L ≠ []) := by
  constructor
  · rintro ⟨e, he, hq⟩
    refine ⟨(hall e he).symm.trans hq, fun hnil => ?_⟩
    subst hnil; exact absurd he (List.not_mem_nil e)
  · rintro ⟨rfl, hne⟩
    obtain ⟨e, he⟩ := List.exists_mem_of_ne_nil L hne
    exact ⟨e, he, hall e he⟩

/-- Error-for-field characterization of a name chain. -/
theorem exists_nameFieldErrors_param_iff (p m1 m2 v q : String) :
    (∃ e ∈ nameFieldErrors p m1 m2 v, e.param = q) ↔
      (p = q ∧ ¬(trimStr v ≠ "" ∧ allAlnum (trimStr v) = true)) := by
  rw [exists_param_of_chunk (fun e he => mem_nameFieldErrors_param he),
    nameFieldErrors_ne_nil_iff]

/-- Error-for-field characterization of a date chain. -/
theorem exists_dateFieldErrors_param_iff (p m : String) (v : Option String) (q : String) :
    (∃ e ∈ dateFieldErrors p m v, e.param = q) ↔
      (p = q ∧ ∃ d, v = some d ∧ d ≠ "" ∧ isISO8601Date d = false) := by
  rw [exists_param_of_chunk (fun e he => mem_dateFieldErrors_param he),
    dateFieldErrors_ne_nil_iff]

/-- Error-for-field characterization of a required-field chain. -/
theorem exists_requiredFieldErrors_param_iff (p m v q : String) :
    (∃ e ∈ requiredFieldErrors p m v, e.param = q) ↔ (p = q ∧ trimStr v = "") := by
  rw [exists_param_of_chunk (fun e he => mem_requiredFieldErrors_param he),
    requiredFieldErrors_ne_nil_iff]

/-- C5: the form validation enforces, per field, exactly the advertised
rules: an author form records an error for first_name (resp. family_name)
precisely when the trimmed value is empty or not entirely alphanumeric, for a
date field precisely when the field is present, truthy and not ISO-8601, and
a book form records an error for title, author, summary or isbn precisely
when the trimmed value is empty. -/
theorem form_field_validation (f : AuthorForm) (g : BookForm) :
    ((∃ e ∈ authorFormErrors f, e.param = "first_name") ↔
      ¬(trimStr f.first_name ≠ "" ∧ allAlnum (trimStr f.first_name) = true)) ∧
    ((∃ e ∈ authorFormErrors f, e.param = "family_name") ↔
      ¬(trimStr f.family_name ≠ "" ∧ allAlnum (trimStr f.family_name) = true)) ∧
    ((∃ e ∈ authorFormErrors f, e.param = "date_of_birth") ↔
      (∃ d, f.date_of_birth = some d ∧ d ≠ "" ∧ isISO8601Date d = false)) ∧
    ((∃ e ∈ authorFormErrors f, e.param = "date_of_death") ↔
      (∃ d, f.date_of_death = some d ∧ d ≠ "" ∧ isISO8601Date d = false)) ∧
    ((∃ e ∈ bookFormErrors g, e.param = "title") ↔ trimStr g.title = "") ∧
    ((∃ e ∈ bookFormErrors g, e.param = "author") ↔ trimStr g.author = "") ∧
    ((∃ e ∈ bookFormErrors g, e.param = "summary") ↔ trimStr g.summary = "") ∧
    ((∃ e ∈ bookFormErrors g, e.param = "isbn") ↔ trimStr g.isbn = "") := by
  refine ⟨?_, ?_, ?_, ?_, ?_, ?_, ?_, ?_⟩ <;>
    simp [authorFormErrors, bookFormErrors, List.mem_append, or_and_right, exists_or,
      exists_nameFieldErrors_param_iff, exists_dateFieldErrors_param_iff,
      exists_requiredFieldErrors_param_iff]

end LocalLibrary
